import Mathlib

/-!
Shallow embedding of `src/optional.h` (fluent-libc optional_t API).

The header defines, via the macro `DEFINE_OPTIONAL_T(K, NAME)`, a struct
`optional_NAME_t { K value; int has_value; }` together with four operations
`optional_NAME_empty`, `optional_NAME_some`, `optional_NAME_is_empty`,
`optional_NAME_unwrap`, and it pre-instantiates the macro once with
`K = void *`, `NAME = generic`.

The macro is textual duplication keyed only by the type `K`, so the whole
family is embedded as one Lean structure and four functions parameterized
over the value type `K`.  The C `int` field and the `int` return of
`is_empty` are embedded as `Int`; the exit status passed to `exit` is an
`Int`.  `void *` pointers are embedded as natural-number addresses with
`NULL = 0`.

`empty`, `some` and `is_empty` are pure in the source (their bodies are
straight-line field assignments / a logical negation, with no I/O and no
call to `exit`), so they are embedded as pure functions; `unwrap` is the
one operation whose body contains `puts` and `exit(1)`, so it is embedded
effectfully: it returns the list of lines written (each tagged with the
stream it goes to) together with `Except.ok value` for a normal return or
`Except.error code` for `exit(code)`.
-/

/-- The two standard C output streams.  `puts` writes to `stdout`. -/
inductive CStream where
  | stdout
  | stderr
deriving DecidableEq, Repr

/-- Outcome of running a C function body: the lines it printed (stream-tagged,
one list entry per output line) and either a normal return value
(`Except.ok`) or a call to `exit` with the given status (`Except.error`). -/
structure CResult (α : Type) where
  out : List (CStream × String)
  res : Except Int α

/-- The struct generated by `DEFINE_OPTIONAL_T(K, NAME)`:
`{ K value; int has_value; }` (src/optional.h lines 65-70). -/
structure optional_t (K : Type) where
  value : K
  has_value : Int
deriving DecidableEq, Repr

/-- `optional_NAME_empty` (src/optional.h lines 72-78):
`opt.value = (K){0}; opt.has_value = 0; return opt;`.
The zero-initialized representation `(K){0}` depends on the concrete C type
`K`, so it is taken here as the explicit argument `zeroK`. -/
def optional_empty {K : Type} (zeroK : K) : optional_t K :=
  ⟨zeroK, 0⟩

/-- `optional_NAME_some` (src/optional.h lines 80-86):
`opt.value = value; opt.has_value = 1; return opt;`. -/
def optional_some {K : Type} (value : K) : optional_t K :=
  ⟨value, 1⟩

/-- `optional_NAME_is_empty` (src/optional.h lines 88-91):
`return !opt.has_value;`.  In C, `!x` is `1` when `x == 0` and `0`
otherwise. -/
def optional_is_empty {K : Type} (opt : optional_t K) : Int :=
  if opt.has_value = 0 then 1 else 0

/-- The exact string passed to `puts` on the fatal path of `unwrap`
(src/optional.h line 100). -/
def unwrapDiagnostic : String :=
  "Error: Attempted to unwrap an optional with no value."

/-- `optional_NAME_unwrap` (src/optional.h lines 93-102):
`if (opt.has_value) { return opt.value; }
 puts("Error: Attempted to unwrap an optional with no value."); exit(1);`.
A C `if (x)` tests `x != 0`; `puts` writes one line to `stdout`. -/
def optional_unwrap {K : Type} (opt : optional_t K) : CResult K :=
  if opt.has_value ≠ 0 then
    ⟨[], Except.ok opt.value⟩
  else
    ⟨[(CStream.stdout, unwrapDiagnostic)], Except.error 1⟩

/-- A `void *` value, embedded as a natural-number address. -/
def VoidPtr : Type := Nat

instance : DecidableEq VoidPtr := instDecidableEqNat
instance : OfNat VoidPtr 0 := ⟨(0 : Nat)⟩

/-- The C null pointer; also the zero-initialized representation
`(void *){0}` used by `optional_generic_empty`. -/
def NULL : VoidPtr := 0

/-- The pre-built instantiation `DEFINE_OPTIONAL_T(void *, generic)`
(src/optional.h lines 105-108): the struct `optional_generic_t`. -/
abbrev optional_generic_t : Type := optional_t VoidPtr

/-- `optional_generic_empty` from `DEFINE_OPTIONAL_T(void *, generic)`;
`(void *){0}` is the null pointer. -/
def optional_generic_empty : optional_generic_t :=
  optional_empty NULL

/-- `optional_generic_some` from `DEFINE_OPTIONAL_T(void *, generic)`. -/
def optional_generic_some (value : VoidPtr) : optional_generic_t :=
  optional_some value

/-- `optional_generic_is_empty` from `DEFINE_OPTIONAL_T(void *, generic)`. -/
def optional_generic_is_empty (opt : optional_generic_t) : Int :=
  optional_is_empty opt

/-- `optional_generic_unwrap` from `DEFINE_OPTIONAL_T(void *, generic)`. -/
def optional_generic_unwrap (opt : optional_generic_t) : CResult VoidPtr :=
  optional_unwrap opt

/-- Effect-annotated form of `optional_NAME_empty`: its body
(src/optional.h lines 72-78) contains no output statement and no call to
`exit`, so running it prints nothing and returns normally. -/
def optional_empty_run {K : Type} (zeroK : K) : CResult (optional_t K) :=
  ⟨[], Except.ok (optional_empty zeroK)⟩

/-- Effect-annotated form of `optional_NAME_some`: its body
(src/optional.h lines 80-86) contains no output statement and no call to
`exit`. -/
def optional_some_run {K : Type} (value : K) : CResult (optional_t K) :=
  ⟨[], Except.ok (optional_some value)⟩

/-- Effect-annotated form of `optional_NAME_is_empty`: its body
(src/optional.h lines 88-91) contains no output statement and no call to
`exit`. -/
def optional_is_empty_run {K : Type} (opt : optional_t K) : CResult Int :=
  ⟨[], Except.ok (optional_is_empty opt)⟩

/-- State-passing form of `optional_NAME_is_empty`: the container is passed
by value as a `const` parameter and the body performs no store to it, so
the caller's container after the call is the one passed in. -/
def optional_is_empty_st {K : Type} (opt : optional_t K) :
    Int × optional_t K :=
  (optional_is_empty opt, opt)

/-- State-passing form of `optional_NAME_unwrap`: the container is passed
by value as a `const` parameter and the body performs no store to it. -/
def optional_unwrap_st {K : Type} (opt : optional_t K) :
    CResult K × optional_t K :=
  (optional_unwrap opt, opt)

/-- Overwrite the `has_value` field of a struct (C value semantics: a field
assignment to one local struct variable). -/
def setFlag {K : Type} (opt : optional_t K) (b : Int) : optional_t K :=
  ⟨opt.value, b⟩

/-- A store of local container variables, one slot per variable, modelling
that each C struct variable occupies its own storage. -/
abbrev Store (K : Type) : Type := List (optional_t K)

/-- Bind one more local container variable (C value semantics: the struct
returned by a constructor is copied into fresh storage). -/
def alloc {K : Type} (s : Store K) (opt : optional_t K) : Store K :=
  s ++ [opt]

/-- Read the container variable in slot `i`. -/
def storeGet {K : Type} (s : Store K) (i : Nat) : Option (optional_t K) :=
  List.get? s i

/-- Update the container variable in slot `i` in place, leaving every other
slot's storage untouched (C value semantics: distinct local variables do
not alias). -/
def storeSet {K : Type} (s : Store K) (i : Nat)
    (f : optional_t K → optional_t K) : Store K :=
  match s, i with
  | [], _ => []
  | opt :: rest, 0 => f opt :: rest
  | opt :: rest, Nat.succ n => opt :: storeSet rest n f

/-- Two container variables constructed independently from the same value
`v` by two separate calls to `optional_NAME_some`. -/
def mkTwoSome {K : Type} (v : K) : Store K :=
  alloc (alloc [] (optional_some v)) (optional_some v)

/-- A container is constructor-produced when it was returned by
`optional_NAME_empty` or by `optional_NAME_some`; these are the only
operations of the API that create containers. -/
def constructed {K : Type} (opt : optional_t K) : Prop :=
  (∃ zeroK, opt = optional_empty zeroK) ∨ (∃ v, opt = optional_some v)

/-- Claim C1: for every instantiated type `K`, calling `unwrap` on an empty
optional (`has_value = 0`) is fatal: it prints a diagnostic and exits with
a non-zero status, and it never returns a value. -/
theorem unwrap_empty_is_fatal (K : Type) (opt : optional_t K)
    (h : opt.has_value = 0) :
    (optional_unwrap opt).out ≠ [] ∧
    (∃ c : Int, (optional_unwrap opt).res = Except.error c ∧ c ≠ 0) ∧
    (∀ v : K, (optional_unwrap opt).res ≠ Except.ok v) := by
  simp [optional_unwrap, h]

/-- Witness for `unwrap_empty_is_fatal` at the pre-built generic
instantiation's empty container. -/
theorem unwrap_empty_is_fatal_witness :
    optional_generic_empty.has_value = 0 ∧
    ((optional_unwrap optional_generic_empty).out ≠ [] ∧
     (∃ c : Int,
        (optional_unwrap optional_generic_empty).res = Except.error c ∧
        c ≠ 0) ∧
     (∀ v : VoidPtr,
        (optional_unwrap optional_generic_empty).res ≠ Except.ok v)) :=
  ⟨rfl, unwrap_empty_is_fatal VoidPtr optional_generic_empty rfl⟩

/-- Claim C2: for every value `v`, `unwrap (some v)` returns exactly `v`,
printing nothing: the round-trip is the identity. -/
theorem unwrap_some_roundtrip (K : Type) (v : K) :
    optional_unwrap (optional_some v) = ⟨[], Except.ok v⟩ := by
  simp [optional_unwrap, optional_some]

/-- Claim C3: `is_empty (some v)` returns the C false (`0`) for every value
`v` of every instantiated type, including the null pointer at the pre-built
pointer instantiation. -/
theorem is_empty_some_false :
    (∀ (K : Type) (v : K), optional_is_empty (optional_some v) = 0) ∧
    optional_generic_is_empty (optional_generic_some NULL) = 0 := by
  constructor
  · intro K v
    simp [optional_is_empty, optional_some]
  · rfl

/-- Claim C4: `is_empty (empty)` returns the C true (`1`) for every
instantiated type (every zero representation `zeroK`). -/
theorem is_empty_empty_true (K : Type) (zeroK : K) :
    optional_is_empty (optional_empty zeroK) = 1 := by
  simp [optional_is_empty, optional_empty]

/-- Counterexample to claim C5: the diagnostic line the fatal path prints
is not the string "attempted to unwrap an optional with no value"; at the
concrete input `optional_generic_empty`, the unwrap output is the single
line `unwrapDiagnostic`, which differs from the claimed text. -/
theorem unwrap_diagnostic_text_differs :
    (optional_unwrap optional_generic_empty).out =
      [(CStream.stdout, unwrapDiagnostic)] ∧
    unwrapDiagnostic ≠ "attempted to unwrap an optional with no value" := by
  constructor
  · rfl
  · decide

/-- Claim C5 (amended): the diagnostic emitted on the fatal unwrap-of-empty
path is a single line whose text is exactly
"Error: Attempted to unwrap an optional with no value.", written to the
standard output stream, and the call then exits with status 1. -/
theorem unwrap_diagnostic_line (K : Type) (opt : optional_t K)
    (h : opt.has_value = 0) :
    (optional_unwrap opt).out =
      [(CStream.stdout,
        "Error: Attempted to unwrap an optional with no value.")] ∧
    (optional_unwrap opt).res = Except.error 1 := by
  simp [optional_unwrap, h, unwrapDiagnostic]

/-- Witness for `unwrap_diagnostic_line` at the generic empty container. -/
theorem unwrap_diagnostic_line_witness :
    optional_generic_empty.has_value = 0 ∧
    ((optional_unwrap optional_generic_empty).out =
       [(CStream.stdout,
         "Error: Attempted to unwrap an optional with no value.")] ∧
     (optional_unwrap optional_generic_empty).res = Except.error 1) :=
  ⟨rfl, unwrap_diagnostic_line VoidPtr optional_generic_empty rfl⟩

/-- Claim C6: `empty` returns a container whose presence flag is `0` and
whose value field holds the zero representation of the type; at the
pre-built pointer instantiation the zero representation is the null
pointer. -/
theorem empty_fields :
    (∀ (K : Type) (zeroK : K),
      (optional_empty zeroK).has_value = 0 ∧
      (optional_empty zeroK).value = zeroK) ∧
    (optional_generic_empty.has_value = 0 ∧
     optional_generic_empty.value = NULL) := by
  exact ⟨fun K zeroK => ⟨rfl, rfl⟩, rfl, rfl⟩

/-- Claim C7: `empty`, `some` and `is_empty` are total: on every input they
print nothing and return normally; and `unwrap` either returns the stored
value normally or (exactly when the container is empty) exits with status
1, so unwrap-on-empty is the single failure mode of the API. -/
theorem api_totality :
    (∀ (K : Type) (zeroK : K),
      (optional_empty_run zeroK).out = [] ∧
      (optional_empty_run zeroK).res = Except.ok (optional_empty zeroK)) ∧
    (∀ (K : Type) (v : K),
      (optional_some_run v).out = [] ∧
      (optional_some_run v).res = Except.ok (optional_some v)) ∧
    (∀ (K : Type) (opt : optional_t K),
      (optional_is_empty_run opt).out = [] ∧
      (optional_is_empty_run opt).res = Except.ok (optional_is_empty opt)) ∧
    (∀ (K : Type) (opt : optional_t K),
      (optional_unwrap opt = ⟨[], Except.ok opt.value⟩ ∧
         optional_is_empty opt = 0) ∨
      (optional_unwrap opt =
         ⟨[(CStream.stdout, unwrapDiagnostic)], Except.error 1⟩ ∧
         optional_is_empty opt = 1)) := by
  refine ⟨fun K zeroK => ⟨rfl, rfl⟩, fun K v => ⟨rfl, rfl⟩,
    fun K opt => ⟨rfl, rfl⟩, fun K opt => ?_⟩
  by_cases h : opt.has_value = 0
  · right
    simp [optional_unwrap, optional_is_empty, h]
  · left
    simp [optional_unwrap, optional_is_empty, h]

/-- Claim C8: `is_empty` and `unwrap` leave the container they are given
unchanged, and two containers constructed independently from the same
value occupy separate storage: each is queryable at its own slot, and
overwriting the presence flag of either one leaves the other slot's
container untouched. -/
theorem no_mutation_no_alias :
    (∀ (K : Type) (opt : optional_t K),
      (optional_is_empty_st opt).2 = opt) ∧
    (∀ (K : Type) (opt : optional_t K),
      (optional_unwrap_st opt).2 = opt) ∧
    (∀ (K : Type) (v : K),
      storeGet (mkTwoSome v) 0 = some (optional_some v) ∧
      storeGet (mkTwoSome v) 1 = some (optional_some v)) ∧
    (∀ (K : Type) (v : K) (b : Int),
      storeGet (storeSet (mkTwoSome v) 0 (fun opt => setFlag opt b)) 1 =
        storeGet (mkTwoSome v) 1 ∧
      storeGet (storeSet (mkTwoSome v) 1 (fun opt => setFlag opt b)) 0 =
        storeGet (mkTwoSome v) 0) := by
  refine ⟨fun K opt => rfl, fun K opt => rfl,
    fun K v => ⟨rfl, rfl⟩, fun K v b => ⟨rfl, rfl⟩⟩

/-- Claim C9: every constructor-produced container has `has_value` exactly
`0` (from `empty`) or exactly `1` (from `some`); on such containers
`is_empty` returns exactly the int `1` when `has_value = 0` and exactly
the int `0` when `has_value = 1`; and both constructors only produce
constructor-produced containers. -/
theorem constructed_invariant :
    (∀ (K : Type) (opt : optional_t K), constructed opt →
      (opt.has_value = 0 ∨ opt.has_value = 1) ∧
      (opt.has_value = 0 → optional_is_empty opt = 1) ∧
      (opt.has_value = 1 → optional_is_empty opt = 0)) ∧
    (∀ (K : Type) (zeroK : K), constructed (optional_empty zeroK)) ∧
    (∀ (K : Type) (v : K), constructed (optional_some v)) := by
  refine ⟨fun K opt h => ?_, fun K zeroK => Or.inl ⟨zeroK, rfl⟩,
    fun K v => Or.inr ⟨v, rfl⟩⟩
  rcases h with ⟨zeroK, rfl⟩ | ⟨v, rfl⟩
  · exact ⟨Or.inl rfl, fun _ => rfl, fun h1 => absurd h1 zero_ne_one⟩
  · exact ⟨Or.inr rfl, fun h0 => absurd h0 one_ne_zero, fun _ => rfl⟩

/-- Witness for `constructed_invariant`: its only hypothesis is the
`constructed` premise of the first conjunct, discharged here at the
generic empty container. -/
theorem constructed_invariant_witness :
    constructed optional_generic_empty ∧
    ((optional_generic_empty.has_value = 0 ∨
      optional_generic_empty.has_value = 1) ∧
     (optional_generic_empty.has_value = 0 →
       optional_is_empty optional_generic_empty = 1) ∧
     (optional_generic_empty.has_value = 1 →
       optional_is_empty optional_generic_empty = 0)) :=
  ⟨Or.inl ⟨NULL, rfl⟩,
   constructed_invariant.1 VoidPtr optional_generic_empty
     (Or.inl ⟨NULL, rfl⟩)⟩

/-- Claim C10: on the fatal unwrap-of-empty path the exit status is exactly
1 (non-zero), and the diagnostic is written to standard output (`puts`),
not to standard error. -/
theorem unwrap_exit_status_and_stream (K : Type) (opt : optional_t K)
    (h : opt.has_value = 0) :
    (optional_unwrap opt).res = Except.error 1 ∧ (1 : Int) ≠ 0 ∧
    (∀ line ∈ (optional_unwrap opt).out, line.1 = CStream.stdout) ∧
    (∀ line ∈ (optional_unwrap opt).out, line.1 ≠ CStream.stderr) := by
  simp [optional_unwrap, h]

/-- Witness for `unwrap_exit_status_and_stream` at the generic empty
container. -/
theorem unwrap_exit_status_and_stream_witness :
    optional_generic_empty.has_value = 0 ∧
    ((optional_unwrap optional_generic_empty).res = Except.error 1 ∧
     (1 : Int) ≠ 0 ∧
     (∀ line ∈ (optional_unwrap optional_generic_empty).out,
        line.1 = CStream.stdout) ∧
     (∀ line ∈ (optional_unwrap optional_generic_empty).out,
        line.1 ≠ CStream.stderr)) :=
  ⟨rfl, unwrap_exit_status_and_stream VoidPtr optional_generic_empty rfl⟩
